import Mathlib

/-!
User-management REST API: controllers and middleware pipeline.

A shallow embedding of `src/controllers/user.controller.js` and of the
middleware order of `src/app.js`.

Every controller has the shape

    userService.<op>(args).then(onResolve).catch(err => next(err))

The user service is a collaborator that lives outside the two source files, so
it is a parameter: a function from the call that is made to the way the
returned promise settles.  A controller is embedded as the list of observable
effects it performs, in order: the collaborator call, the methods it invokes on
`res`, and the calls of `next`.
-/

namespace UserApi

/-! ## Values -/

/-- JavaScript values that travel through the controllers: request bodies, ids,
user records and whatever the collaborator resolves with.  Numbers are
integers plus `NaN`, which is all that truthiness can tell apart. -/
inductive Val where
  | undefined
  | null
  | bool (b : Bool)
  | num (n : Int)
  | nan
  | str (s : String)
  | arr (items : List Val)
  | obj (fields : List (String × Val))

/-- The truthiness test of `user ? a : b`: the falsy values are `undefined`,
`null`, `false`, `0`, `NaN` and the empty string. -/
def Val.truthy : Val → Bool
  | .undefined => false
  | .null => false
  | .bool b => b
  | .num n => n != 0
  | .nan => false
  | .str s => s != ""
  | .arr _ => true
  | .obj _ => true

/-- Whether an object value carries a field of the given name (at top level). -/
def Val.hasField : Val → String → Bool
  | .obj fields, name => fields.any (fun kv => kv.1 == name)
  | _, _ => false

/-- The failure kinds of the specification's error taxonomy. -/
inductive FailureKind where
  | Unauthenticated
  | Forbidden
  | NotFound
  | ValidationError
  | Conflict
  | Unexpected
  deriving DecidableEq, Repr

/-- What a promise can reject with, or a function can throw: a typed failure
(kind and optional message), the `TypeError` the runtime raises on a property
access on `undefined`, or any other value. -/
inductive Thrown where
  | failure (kind : FailureKind) (message : Option String)
  | typeError (message : String)
  | value (v : Val)

/-! ## The collaborator -/

/-- The calls the controllers make on `userService`, with their arguments. -/
inductive Call where
  | authenticate (credentials : Val)
  | create (candidate : Val)
  | getAll
  | getById (id : Val)
  | update (id : Val) (patch : Val)
  | delete (id : Val)

/-- How the promise returned by a collaborator call settles. -/
inductive Outcome where
  | resolve (v : Val)
  | reject (e : Thrown)

/-- The user service: for each call, the way its promise settles. -/
abbrev UserService := Call → Outcome

/-! ## Requests and observable effects -/

/-- The identity the token verifier attaches as `req.user`.  The controllers
read `sub` only; `isAdmin` is the role claim of the specification. -/
structure Identity where
  sub : Val
  isAdmin : Bool

/-- HTTP methods. -/
inductive Method where
  | GET | POST | PUT | DELETE | OPTIONS | PATCH | HEAD
  deriving DecidableEq, Repr

/-- The route parameters: `req.params`. -/
structure Params where
  id : Val

/-- The parts of an Express request the program reads.  `path` is the list of
path segments, `authorization` the bearer value of the authorization header
when there is one, `user` is `req.user` (absent until a verifier attaches
it). -/
structure Request where
  method : Method
  path : List String
  authorization : Option String
  body : Val
  params : Params
  user : Option Identity

/-- The controllers of `user.controller.js`. -/
inductive Controller where
  | authenticate
  | register
  | getAll
  | getCurrent
  | getById
  | update
  | _delete
  deriving DecidableEq, Repr

/-- The body of a response that was sent: a JSON value, a text, the page
Express renders by itself, or nothing. -/
inductive Body where
  | json (v : Val)
  | text (s : String)
  | page
  | empty

/-- A response as the client sees it. -/
structure Response where
  status : Nat
  body : Body

/-- One observable effect.  `status`, `json` and `sendStatus` are the methods
of `res` the controllers call; `next e` is `next(e)`, with `next()` written
`next (.value .undefined)`; `threw e` records that the async function threw, so
that the promise it returns rejects with `e` and nothing else happens;
`ended r` is a library middleware ending the response itself with `r`;
`finalHandler` is Express answering by itself once the middleware stack is
exhausted. -/
inductive Event where
  | call (c : Call)
  | status (code : Nat)
  | json (body : Val)
  | sendStatus (code : Nat)
  | next (err : Thrown)
  | threw (e : Thrown)
  | ended (r : Response)
  | finalHandler (err : Option Thrown)

/-! ## The controllers (`src/controllers/user.controller.js`) -/

/-- The body `authenticate` sends with status 400. -/
def incorrectCredentials : Val :=
  .obj [("message", .str "Username or password is incorrect")]

/-- The error raised by reading `.sub` of an absent `req.user`. -/
def subOfUndefined : Thrown :=
  .typeError "Cannot read properties of undefined (reading 'sub')"

/-- Lines 3-7: `userService.authenticate(req.body)`, then
`user ? res.json(user) : res.status(400).json(...)`, errors to `next`. -/
def authenticate (userService : UserService) (req : Request) : List Event :=
  .call (.authenticate req.body) ::
    match userService (.authenticate req.body) with
    | .resolve user =>
      if user.truthy then [.json user] else [.status 400, .json incorrectCredentials]
    | .reject err => [.next err]

/-- Lines 9-13: `userService.create(req.body)`, then `res.json({})`. -/
def register (userService : UserService) (req : Request) : List Event :=
  .call (.create req.body) ::
    match userService (.create req.body) with
    | .resolve _ => [.json (.obj [])]
    | .reject err => [.next err]

/-- Lines 15-19: `userService.getAll()`, then `res.json(users)`. -/
def getAll (userService : UserService) (_req : Request) : List Event :=
  .call .getAll ::
    match userService .getAll with
    | .resolve users => [.json users]
    | .reject err => [.next err]

/-- Lines 21-25: `userService.getById(req.user.sub)`, then
`user ? res.json(user) : res.sendStatus(404)`.  The argument `req.user.sub` is
evaluated first; with `req.user` absent that evaluation throws inside the async
function, before the collaborator is reached and outside the promise chain
that carries the `.catch`. -/
def getCurrent (userService : UserService) (req : Request) : List Event :=
  match req.user with
  | none => [.threw subOfUndefined]
  | some user =>
    .call (.getById user.sub) ::
      match userService (.getById user.sub) with
      | .resolve user => if user.truthy then [.json user] else [.sendStatus 404]
      | .reject err => [.next err]

/-- Lines 27-31: `userService.getById(req.params.id)`, then
`user ? res.json(user) : res.sendStatus(404)`. -/
def getById (userService : UserService) (req : Request) : List Event :=
  .call (.getById req.params.id) ::
    match userService (.getById req.params.id) with
    | .resolve user => if user.truthy then [.json user] else [.sendStatus 404]
    | .reject err => [.next err]

/-- Lines 33-37: `userService.update(req.params.id, req.body)`, then
`res.json({})`. -/
def update (userService : UserService) (req : Request) : List Event :=
  .call (.update req.params.id req.body) ::
    match userService (.update req.params.id req.body) with
    | .resolve _ => [.json (.obj [])]
    | .reject err => [.next err]

/-- Lines 39-43: `userService.delete(req.params.id)`, then `res.json({})`. -/
def _delete (userService : UserService) (req : Request) : List Event :=
  .call (.delete req.params.id) ::
    match userService (.delete req.params.id) with
    | .resolve _ => [.json (.obj [])]
    | .reject err => [.next err]

/-- The function each export of the module names. -/
def Controller.run : Controller → UserService → Request → List Event
  | .authenticate => UserApi.authenticate
  | .register => UserApi.register
  | .getAll => UserApi.getAll
  | .getCurrent => UserApi.getCurrent
  | .getById => UserApi.getById
  | .update => UserApi.update
  | ._delete => UserApi._delete

/-! ## Reading a trace -/

/-- The status messages Express has registered (the table of the `statuses`
package). -/
def statusMessages : List (Nat × String) :=
  [(100, "Continue"), (101, "Switching Protocols"), (102, "Processing"),
    (103, "Early Hints"), (200, "OK"), (201, "Created"), (202, "Accepted"),
    (203, "Non-Authoritative Information"), (204, "No Content"), (205, "Reset Content"),
    (206, "Partial Content"), (207, "Multi-Status"), (208, "Already Reported"),
    (226, "IM Used"), (300, "Multiple Choices"), (301, "Moved Permanently"),
    (302, "Found"), (303, "See Other"), (304, "Not Modified"), (305, "Use Proxy"),
    (307, "Temporary Redirect"), (308, "Permanent Redirect"), (400, "Bad Request"),
    (401, "Unauthorized"), (402, "Payment Required"), (403, "Forbidden"),
    (404, "Not Found"), (405, "Method Not Allowed"), (406, "Not Acceptable"),
    (407, "Proxy Authentication Required"), (408, "Request Timeout"), (409, "Conflict"),
    (410, "Gone"), (411, "Length Required"), (412, "Precondition Failed"),
    (413, "Payload Too Large"), (414, "URI Too Long"), (415, "Unsupported Media Type"),
    (416, "Range Not Satisfiable"), (417, "Expectation Failed"), (418, "I'm a Teapot"),
    (421, "Misdirected Request"), (422, "Unprocessable Entity"), (423, "Locked"),
    (424, "Failed Dependency"), (425, "Too Early"), (426, "Upgrade Required"),
    (428, "Precondition Required"), (429, "Too Many Requests"),
    (431, "Request Header Fields Too Large"), (451, "Unavailable For Legal Reasons"),
    (500, "Internal Server Error"), (501, "Not Implemented"), (502, "Bad Gateway"),
    (503, "Service Unavailable"), (504, "Gateway Timeout"),
    (505, "HTTP Version Not Supported"), (506, "Variant Also Negotiates"),
    (507, "Insufficient Storage"), (508, "Loop Detected"),
    (509, "Bandwidth Limit Exceeded"), (510, "Not Extended"),
    (511, "Network Authentication Required")]

/-- The text `res.sendStatus` hands to `res.send`: the registered message of the
code, or the code in decimal when it has none. -/
def statusMessage (code : Nat) : String :=
  (statusMessages.lookup code).getD (toString code)

/-- The body `res.send` lets through for a text: none at all under the status
codes 204, 205 and 304, the text otherwise. -/
def sentText (code : Nat) (text : String) : Body :=
  if code = 204 ∨ code = 205 ∨ code = 304 then .empty else .text text

/-- A numeric property of an error object, when it has one. -/
def numberField (fields : List (String × Val)) (name : String) : Option Int :=
  match fields.find? (fun kv => kv.1 == name) with
  | some (_, .num n) => some n
  | _ => none

/-- The status code an error carries for Express's final handler: its `status`
property when that is a number from 400 to 599, else its `statusCode` property
when that is one. -/
def errorStatus : Thrown → Option Nat
  | .value (.obj fields) =>
    match (numberField fields "status").filter (fun n => 400 ≤ n ∧ n ≤ 599) with
    | some n => some n.toNat
    | none =>
      ((numberField fields "statusCode").filter (fun n => 400 ≤ n ∧ n ≤ 599)).map Int.toNat
  | _ => none

/-- The status Express's final handler gives a pending error: the code the
error carries, else the code already set on `res` when that is from 400 to
599, else 500. -/
def finalStatus (current : Nat) (e : Thrown) : Nat :=
  match errorStatus e with
  | some code => code
  | none => if 400 ≤ current ∧ current ≤ 599 then current else 500

/-- The response a trace sends, read with the status code currently set on
`res`: `res.status(c)` sets the code, `res.json(v)` sends `v` with the code
that is set, `res.sendStatus(c)` sets the code and sends its status message.
The first send is the response. -/
def respond : Nat → List Event → Option Response
  | _, [] => none
  | _, .status code :: rest => respond code rest
  | current, .json v :: _ => some ⟨current, .json v⟩
  | _, .sendStatus code :: _ => some ⟨code, sentText code (statusMessage code)⟩
  | _, .ended r :: _ => some r
  | _, .finalHandler none :: _ => some ⟨404, .page⟩
  | current, .finalHandler (some e) :: _ => some ⟨finalStatus current e, .page⟩
  | current, _ :: rest => respond current rest

/-- The response of a trace; a fresh `res` has status code 200. -/
def responseOf (trace : List Event) : Option Response :=
  respond 200 trace

/-- The status code of the response, when one was sent. -/
def statusOf (trace : List Event) : Option Nat :=
  (responseOf trace).map (fun r => r.status)

/-- The arguments of the calls of `next`, in order. -/
def nextCalls : List Event → List Thrown
  | [] => []
  | .next e :: rest => e :: nextCalls rest
  | _ :: rest => nextCalls rest

/-- The collaborator calls of a trace, in order. -/
def collabCalls : List Event → List Call
  | [] => []
  | .call c :: rest => c :: collabCalls rest
  | _ :: rest => collabCalls rest

/-- The status codes the trace sets itself, through `res.status` or
`res.sendStatus`, in order. -/
def statusCodesSet : List Event → List Nat
  | [] => []
  | .status code :: rest => code :: statusCodesSet rest
  | .sendStatus code :: rest => code :: statusCodesSet rest
  | _ :: rest => statusCodesSet rest

/-- What the async function threw, if it did. -/
def thrownBy : List Event → Option Thrown
  | [] => none
  | .threw e :: _ => some e
  | _ :: rest => thrownBy rest

/-- A trace that does nothing but make the call `c` and hand `e` to `next`: no
status code is set, no response is sent, nothing is thrown, and `next` is
called once, with `e`. -/
def ForwardsOnly (trace : List Event) (c : Call) (e : Thrown) : Prop :=
  trace = [.call c, .next e] ∧ statusCodesSet trace = [] ∧ responseOf trace = none ∧
    thrownBy trace = none ∧ nextCalls trace = [e]

/-! ## The middleware pipeline (`src/app.js`)

`app.use` appends a layer to the application's stack.  Express hands a request
to the layers in that order.  A layer that calls `next()` passes the request
on; a layer that calls `next(err)` with a truthy `err` puts the request in
error mode, in which every layer that is not an error handler (a function of
four parameters) is skipped; an error handler is skipped while no error is
pending.  When the stack is exhausted Express answers by itself.

The middleware of `body-parser` and `cors` are libraries, and
`./routers/user.route` is not among the sources: they are parameters. -/

/-- What a library middleware does with a request: it passes on a request it
may have changed, fails with an error, or ends the response itself. -/
inductive Step where
  | pass (req : Request)
  | fail (e : Thrown)
  | answer (r : Response)

/-- The effects of a library middleware's step and the request it leaves. -/
def Step.effects : Step → Request → List Event × Request
  | .pass req, _ => ([.next (.value .undefined)], req)
  | .fail e, req => ([.next e], req)
  | .answer r, req => ([.ended r], req)

/-- The surroundings of the application: the three library middleware, the
credential check of the token verifier, and the router mounted at `/users`,
which is handed the request with the mount path removed. -/
structure Env where
  urlencoded : Request → Step
  json : Request → Step
  cors : Request → Step
  verify : String → Option Identity
  router : Request → List Event

/-- The layers `app.js` installs. -/
inductive Layer where
  | urlencoded
  | json
  | cors
  | jwt
  | mount (at_ : String)
  | errorHandler
  deriving DecidableEq, Repr

/-- Lines 8-19 of `app.js`: the six `app.use` calls, in order. -/
def app : List Layer :=
  [.urlencoded, .json, .cors, .jwt, .mount "users", .errorHandler]

/-- Modelled from the spec: the routes that need no credential, which
`./helpers/jwt` (not among the sources) lets through unverified.  Section 6
lists `POST /users/authenticate` and `POST /users/register` with no
authorization required. -/
def isPublic (req : Request) : Bool :=
  req.method == .POST &&
    (req.path == ["users", "authenticate"] || req.path == ["users", "register"])

/-- Modelled from the spec: the token verifier `jwt()` of `./helpers/jwt` (not
among the sources), section 4.1.  A public route bypasses it.  Elsewhere the
bearer value is verified: on success the identity is attached to the request,
and an absent, malformed or invalid credential fails with `Unauthenticated`,
with no further distinction. -/
def jwt (verify : String → Option Identity) (req : Request) : List Event × Request :=
  if isPublic req then ([.next (.value .undefined)], req)
  else
    match req.authorization.bind verify with
    | some identity => ([.next (.value .undefined)], { req with user := some identity })
    | none => ([.next (.failure .Unauthenticated none)], req)

/-- Modelled from the spec: the status column of the table of section 4.4. -/
def FailureKind.status : FailureKind → Nat
  | .Unauthenticated => 401
  | .Forbidden => 403
  | .NotFound => 404
  | .ValidationError => 400
  | .Conflict => 409
  | .Unexpected => 500

/-- Modelled from the spec: the body column of the table of section 4.4, an
object with the failure's message when it carries one. -/
def messageBody : Option String → Val
  | some message => .obj [("message", .str message)]
  | none => .obj []

/-- Modelled from the spec: the error normalizer `./helpers/error-handler` (not
among the sources), section 4.4.  A typed failure gets the status of its kind
and its message; an unexpected failure, and any error that is no typed
failure, gets status 500 and a fixed message. -/
def errorHandler : Thrown → List Event
  | .failure .Unexpected _ => [.status 500, .json (messageBody (some "Unexpected error"))]
  | .failure kind message => [.status kind.status, .json (messageBody message)]
  | _ => [.status 500, .json (messageBody (some "Unexpected error"))]

/-- Whether a layer is an error handler (takes `err, req, res, next`). -/
def Layer.isErrorHandler : Layer → Bool
  | .errorHandler => true
  | _ => false

/-- A path segment in lower case. -/
def lowerCase (segment : String) : String :=
  ⟨segment.data.map Char.toLower⟩

/-- Whether a layer is installed on the request's path: `app.use(fn)` is, for
every path; `app.use("/users", router)` for the paths under `/users`, which
Express compares without regard to case. -/
def Layer.onPath : Layer → Request → Bool
  | .mount at_, req => req.path.head?.map lowerCase == some (lowerCase at_)
  | _, _ => true

/-- What a layer that is no error handler does with a request. -/
def Layer.handle (env : Env) : Layer → Request → List Event × Request
  | .urlencoded, req => (env.urlencoded req).effects req
  | .json, req => (env.json req).effects req
  | .cors, req => (env.cors req).effects req
  | .jwt, req => UserApi.jwt env.verify req
  | .mount _, req => (env.router { req with path := req.path.tail }, req)
  | .errorHandler, req => ([], req)

/-- How a layer left the request. -/
inductive Signal where
  | ended
  | proceed
  | error (e : Thrown)
  | leave

/-- The reading Express gives the argument of `next`: `"route"` and falsy
values carry no error, `"router"` leaves the stack, anything else is an
error. -/
def Signal.ofNext : Thrown → Signal
  | .value (.str "route") => .proceed
  | .value (.str "router") => .leave
  | .value v => if v.truthy then .error (.value v) else .proceed
  | e => .error e

/-- The signal of a layer's effects: its first call of `next`, if any. -/
def Signal.ofEvents : List Event → Signal
  | [] => .ended
  | .next e :: _ => .ofNext e
  | _ :: rest => Signal.ofEvents rest

/-- Express's dispatch of a request through a stack of layers, with the error
that is pending, if any. -/
def dispatch (env : Env) : List Layer → Option Thrown → Request → List Event
  | [], pending, _ => [.finalHandler pending]
  | layer :: rest, none, req =>
    if layer.isErrorHandler || !layer.onPath req then dispatch env rest none req
    else
      (layer.handle env req).1 ++
        match Signal.ofEvents (layer.handle env req).1 with
        | .ended => []
        | .proceed => dispatch env rest none (layer.handle env req).2
        | .error e => dispatch env rest (some e) (layer.handle env req).2
        | .leave => [.finalHandler none]
  | layer :: rest, some err, req =>
    if layer.isErrorHandler && layer.onPath req then
      errorHandler err ++
        match Signal.ofEvents (errorHandler err) with
        | .ended => []
        | .proceed => dispatch env rest none req
        | .error e => dispatch env rest (some e) req
        | .leave => [.finalHandler none]
    else dispatch env rest (some err) req

/-- The application serving a request. -/
def serve (env : Env) (req : Request) : List Event :=
  dispatch env app none req

/-! ## Sample inputs -/

/-- A user record as a collaborator may hold it, credential hash included. -/
def sampleRecord : Val :=
  .obj [("id", .str "2"), ("username", .str "bob"), ("hash", .str "$2a$10$abc"),
    ("role", .str "User")]

/-- An authenticated, non-admin caller with subject `1` asking for user `2`. -/
def sampleRequest : Request where
  method := .GET
  path := ["users", "2"]
  authorization := some "token-of-1"
  body := .obj [("username", .str "bob"), ("password", .str "secret")]
  params := ⟨.str "2"⟩
  user := some ⟨.str "1", false⟩

/-- An administrator with subject `2` asking for user `2`, its own record. -/
def ownerRequest : Request where
  method := .GET
  path := ["users", "2"]
  authorization := some "token-of-2"
  body := .obj [("username", .str "bob"), ("password", .str "secret")]
  params := ⟨.str "2"⟩
  user := some ⟨.str "2", true⟩

/-- A request on which no identity is attached. -/
def anonymousRequest : Request where
  method := .GET
  path := ["users", "current"]
  authorization := none
  body := .undefined
  params := ⟨.undefined⟩
  user := none

/-- A collaborator that finds nothing: every call resolves with `null`. -/
def noMatch : UserService := fun _ => .resolve .null

/-- A collaborator that finds `sampleRecord` on every call. -/
def finds : UserService := fun _ => .resolve sampleRecord

/-- A collaborator whose every call rejects with a `Conflict` failure. -/
def rejecting : UserService := fun _ => .reject (.failure .Conflict (some "taken"))

/-- Surroundings for the examples: library middleware that pass every request
on unchanged, a verifier that knows one token, and a router that hands every
request to `getAll`. -/
def sampleEnv : Env where
  urlencoded := .pass
  json := .pass
  cors := .pass
  verify := fun token => if token = "token-of-1" then some ⟨.str "1", false⟩ else none
  router := getAll finds

/-! ## Lemmas shared by the results -/

theorem authenticate_resolve (userService : UserService) (req : Request) (v : Val)
    (h : userService (.authenticate req.body) = .resolve v) :
    authenticate userService req = .call (.authenticate req.body) ::
      (if v.truthy then [.json v] else [.status 400, .json incorrectCredentials]) := by
  simp [authenticate, h]

theorem getById_resolve (userService : UserService) (req : Request) (v : Val)
    (h : userService (.getById req.params.id) = .resolve v) :
    getById userService req = .call (.getById req.params.id) ::
      (if v.truthy then [.json v] else [.sendStatus 404]) := by
  simp [getById, h]

theorem getCurrent_resolve (userService : UserService) (req : Request) (u : Identity)
    (v : Val) (hu : req.user = some u) (h : userService (.getById u.sub) = .resolve v) :
    getCurrent userService req = .call (.getById u.sub) ::
      (if v.truthy then [.json v] else [.sendStatus 404]) := by
  simp [getCurrent, hu, h]

theorem getCurrent_anonymous (userService : UserService) (req : Request)
    (hu : req.user = none) : getCurrent userService req = [.threw subOfUndefined] := by
  simp [getCurrent, hu]

theorem statusMessage_404 : statusMessage 404 = "Not Found" := by decide

theorem sentText_404 (text : String) : sentText 404 text = .text text := by
  simp [sentText]

/-- The status codes a controller's response can carry. -/
theorem run_status (ctl : Controller) (userService : UserService) (req : Request) :
    statusOf (ctl.run userService req) = none ∨
    statusOf (ctl.run userService req) = some 200 ∨
    statusOf (ctl.run userService req) = some 400 ∨
    statusOf (ctl.run userService req) = some 404 := by
  cases ctl <;> simp only [Controller.run]
  case authenticate =>
    unfold authenticate
    cases h : userService (.authenticate req.body) with
    | resolve v => by_cases ht : v.truthy <;> simp [ht, statusOf, responseOf, respond]
    | reject e => simp [statusOf, responseOf, respond]
  case getCurrent =>
    unfold getCurrent
    cases hu : req.user with
    | none => simp [statusOf, responseOf, respond]
    | some u =>
      cases h : userService (.getById u.sub) with
      | resolve v => by_cases ht : v.truthy <;> simp [h, ht, statusOf, responseOf, respond]
      | reject e => simp [h, statusOf, responseOf, respond]
  case getById =>
    unfold getById
    cases h : userService (.getById req.params.id) with
    | resolve v => by_cases ht : v.truthy <;> simp [ht, statusOf, responseOf, respond]
    | reject e => simp [statusOf, responseOf, respond]
  case register =>
    unfold register
    cases h : userService (.create req.body) <;> simp [statusOf, responseOf, respond]
  case getAll =>
    unfold getAll
    cases h : userService .getAll <;> simp [statusOf, responseOf, respond]
  case update =>
    unfold update
    cases h : userService (.update req.params.id req.body) <;>
      simp [statusOf, responseOf, respond]
  case _delete =>
    unfold _delete
    cases h : userService (.delete req.params.id) <;> simp [statusOf, responseOf, respond]

/-- No controller's response carries status 403. -/
theorem run_status_ne_403 (ctl : Controller) (userService : UserService) (req : Request) :
    statusOf (ctl.run userService req) ≠ some 403 := by
  rcases run_status ctl userService req with h | h | h | h <;> rw [h] <;> simp

/-- Only `getCurrent` reads `req.user`. -/
theorem run_ignores_user (ctl : Controller) (h : ctl ≠ .getCurrent)
    (userService : UserService) (req : Request) (who : Option Identity) :
    ctl.run userService { req with user := who } = ctl.run userService req := by
  cases ctl <;> first | rfl | exact absurd rfl h

/-! ## Results on the controllers -/

/-- C1, as stated, fails: when `userService.authenticate` resolves with `null`
(no match), the `authenticate` controller answers with status 400, not 401. -/
theorem authenticate_no_match_not_401 :
    noMatch (.authenticate sampleRequest.body) = .resolve .null ∧
    Val.null.truthy = false ∧
    statusOf (authenticate noMatch sampleRequest) = some 400 ∧
    statusOf (authenticate noMatch sampleRequest) ≠ some 401 := by
  refine ⟨rfl, rfl, rfl, ?_⟩
  decide

/-- C1, amended: for every request body, when `userService.authenticate`
resolves with a falsy value, the `authenticate` controller sets status 400
itself and sends the fixed message body; the response status is 400 (neither 401
nor 404) and `next` is not called. -/
theorem authenticate_no_match_400 (userService : UserService) (req : Request) (v : Val)
    (h : userService (.authenticate req.body) = .resolve v) (hv : v.truthy = false) :
    authenticate userService req =
      [.call (.authenticate req.body), .status 400, .json incorrectCredentials] ∧
    responseOf (authenticate userService req) = some ⟨400, .json incorrectCredentials⟩ ∧
    statusOf (authenticate userService req) ≠ some 401 ∧
    statusOf (authenticate userService req) ≠ some 404 ∧
    nextCalls (authenticate userService req) = [] := by
  have ht : authenticate userService req =
      [.call (.authenticate req.body), .status 400, .json incorrectCredentials] := by
    rw [authenticate_resolve userService req v h]; simp [hv]
  rw [ht]
  refine ⟨rfl, rfl, ?_, ?_, rfl⟩ <;> simp [statusOf, responseOf, respond]

theorem authenticate_no_match_400_witness :
    authenticate noMatch sampleRequest =
      [.call (.authenticate sampleRequest.body), .status 400, .json incorrectCredentials] ∧
    responseOf (authenticate noMatch sampleRequest) = some ⟨400, .json incorrectCredentials⟩ ∧
    statusOf (authenticate noMatch sampleRequest) ≠ some 401 ∧
    statusOf (authenticate noMatch sampleRequest) ≠ some 404 ∧
    nextCalls (authenticate noMatch sampleRequest) = [] :=
  authenticate_no_match_400 noMatch sampleRequest .null rfl rfl

/-- C2, as stated, fails: on a collaborator that finds nothing, `authenticate`
sets status 400 and `getById` sends status 404 themselves; neither answers
with status 200 and neither calls `next`. -/
theorem controllers_set_status :
    statusCodesSet (Controller.authenticate.run noMatch sampleRequest) = [400] ∧
    statusOf (Controller.authenticate.run noMatch sampleRequest) = some 400 ∧
    nextCalls (Controller.authenticate.run noMatch sampleRequest) = [] ∧
    statusCodesSet (Controller.getById.run noMatch sampleRequest) = [404] ∧
    statusOf (Controller.getById.run noMatch sampleRequest) = some 404 ∧
    nextCalls (Controller.getById.run noMatch sampleRequest) = [] :=
  ⟨rfl, rfl, rfl, rfl, rfl, rfl⟩

/-- C2, amended: `register`, `getAll`, `update` and `_delete` never set a status
code: on every outcome of the collaborator call they either answer with the
default status 200 and do not call `next`, or answer nothing and call `next`
once.  The other three do set a status code directly, exactly when the
collaborator resolves with a falsy value: `authenticate` then sets 400,
`getCurrent` (with an identity attached) and `getById` then send 404, each as
the response and without calling `next`; when the collaborator resolves with a
truthy value or rejects, they set none.  These are the only status codes a
controller sets. -/
theorem status_codes_set_by_controllers (ctl : Controller) (userService : UserService)
    (req : Request) :
    (ctl ∈ [Controller.register, .getAll, .update, ._delete] →
      statusCodesSet (ctl.run userService req) = [] ∧
      (statusOf (ctl.run userService req) = some 200 ∧
          nextCalls (ctl.run userService req) = [] ∨
        responseOf (ctl.run userService req) = none ∧
          ∃ e, nextCalls (ctl.run userService req) = [e])) ∧
    (statusCodesSet (ctl.run userService req) = [] ∨
      ctl = .authenticate ∧ statusCodesSet (ctl.run userService req) = [400] ∧
        statusOf (ctl.run userService req) = some 400 ∧
        nextCalls (ctl.run userService req) = [] ∨
      (ctl = .getCurrent ∨ ctl = .getById) ∧
        statusCodesSet (ctl.run userService req) = [404] ∧
        statusOf (ctl.run userService req) = some 404 ∧
        nextCalls (ctl.run userService req) = []) ∧
    (∀ v, userService (.authenticate req.body) = .resolve v →
      (v.truthy = false →
        statusCodesSet (authenticate userService req) = [400] ∧
        statusOf (authenticate userService req) = some 400 ∧
        nextCalls (authenticate userService req) = []) ∧
      (v.truthy = true →
        statusCodesSet (authenticate userService req) = [] ∧
        statusOf (authenticate userService req) = some 200)) ∧
    (∀ v, userService (.getById req.params.id) = .resolve v →
      (v.truthy = false →
        statusCodesSet (getById userService req) = [404] ∧
        statusOf (getById userService req) = some 404 ∧
        nextCalls (getById userService req) = []) ∧
      (v.truthy = true →
        statusCodesSet (getById userService req) = [] ∧
        statusOf (getById userService req) = some 200)) ∧
    (∀ u v, req.user = some u → userService (.getById u.sub) = .resolve v →
      (v.truthy = false →
        statusCodesSet (getCurrent userService req) = [404] ∧
        statusOf (getCurrent userService req) = some 404 ∧
        nextCalls (getCurrent userService req) = []) ∧
      (v.truthy = true →
        statusCodesSet (getCurrent userService req) = [] ∧
        statusOf (getCurrent userService req) = some 200)) ∧
    (∀ e, userService (.authenticate req.body) = .reject e →
      statusCodesSet (authenticate userService req) = [] ∧
      nextCalls (authenticate userService req) = [e]) ∧
    (∀ e, userService (.getById req.params.id) = .reject e →
      statusCodesSet (getById userService req) = [] ∧
      nextCalls (getById userService req) = [e]) ∧
    (∀ u e, req.user = some u → userService (.getById u.sub) = .reject e →
      statusCodesSet (getCurrent userService req) = [] ∧
      nextCalls (getCurrent userService req) = [e]) := by
  refine ⟨?_, ?_, ?_, ?_, ?_, ?_, ?_, ?_⟩
  · cases ctl <;> simp only [Controller.run]
    case authenticate => simp
    case getCurrent => simp
    case getById => simp
    case register =>
      unfold register
      cases h : userService (.create req.body) <;>
        simp [statusCodesSet, statusOf, responseOf, respond, nextCalls]
    case getAll =>
      unfold getAll
      cases h : userService .getAll <;>
        simp [statusCodesSet, statusOf, responseOf, respond, nextCalls]
    case update =>
      unfold update
      cases h : userService (.update req.params.id req.body) <;>
        simp [statusCodesSet, statusOf, responseOf, respond, nextCalls]
    case _delete =>
      unfold _delete
      cases h : userService (.delete req.params.id) <;>
        simp [statusCodesSet, statusOf, responseOf, respond, nextCalls]
  · cases ctl <;> simp only [Controller.run]
    case authenticate =>
      unfold authenticate
      cases h : userService (.authenticate req.body) with
      | resolve v =>
        by_cases ht : v.truthy <;>
          simp [ht, statusCodesSet, statusOf, responseOf, respond, nextCalls]
      | reject e => simp [statusCodesSet]
    case getCurrent =>
      unfold getCurrent
      cases hu : req.user with
      | none => simp [statusCodesSet]
      | some u =>
        cases h : userService (.getById u.sub) with
        | resolve v =>
          by_cases ht : v.truthy <;>
            simp [h, ht, statusCodesSet, statusOf, responseOf, respond, nextCalls]
        | reject e => simp [h, statusCodesSet]
    case getById =>
      unfold getById
      cases h : userService (.getById req.params.id) with
      | resolve v =>
        by_cases ht : v.truthy <;>
          simp [ht, statusCodesSet, statusOf, responseOf, respond, nextCalls]
      | reject e => simp [statusCodesSet]
    case register =>
      unfold register
      cases h : userService (.create req.body) <;> simp [statusCodesSet]
    case getAll =>
      unfold getAll
      cases h : userService .getAll <;> simp [statusCodesSet]
    case update =>
      unfold update
      cases h : userService (.update req.params.id req.body) <;> simp [statusCodesSet]
    case _delete =>
      unfold _delete
      cases h : userService (.delete req.params.id) <;> simp [statusCodesSet]
  · intro v h
    rw [authenticate_resolve userService req v h]
    constructor <;> intro ht <;>
      simp [ht, statusCodesSet, statusOf, responseOf, respond, nextCalls]
  · intro v h
    rw [getById_resolve userService req v h]
    constructor <;> intro ht <;>
      simp [ht, statusCodesSet, statusOf, responseOf, respond, nextCalls]
  · intro u v hu h
    rw [getCurrent_resolve userService req u v hu h]
    constructor <;> intro ht <;>
      simp [ht, statusCodesSet, statusOf, responseOf, respond, nextCalls]
  · intro e h
    simp [authenticate, h, statusCodesSet, nextCalls]
  · intro e h
    simp [getById, h, statusCodesSet, nextCalls]
  · intro u e hu h
    simp [getCurrent, hu, h, statusCodesSet, nextCalls]

theorem status_codes_set_by_controllers_witness :
    statusCodesSet (authenticate noMatch sampleRequest) = [400] ∧
    statusCodesSet (getById noMatch sampleRequest) = [404] ∧
    statusCodesSet (getCurrent noMatch sampleRequest) = [404] ∧
    statusCodesSet (getCurrent finds sampleRequest) = [] ∧
    statusCodesSet (Controller.register.run noMatch sampleRequest) = [] :=
  ⟨((status_codes_set_by_controllers .authenticate noMatch sampleRequest).2.2.1
      .null rfl).1 rfl |>.1,
    ((status_codes_set_by_controllers .authenticate noMatch sampleRequest).2.2.2.1
      .null rfl).1 rfl |>.1,
    ((status_codes_set_by_controllers .authenticate noMatch sampleRequest).2.2.2.2.1
      ⟨.str "1", false⟩ .null rfl rfl).1 rfl |>.1,
    ((status_codes_set_by_controllers .authenticate finds sampleRequest).2.2.2.2.1
      ⟨.str "1", false⟩ sampleRecord rfl rfl).2 rfl |>.1,
    ((status_codes_set_by_controllers .register noMatch sampleRequest).1 (by simp)).1⟩

/-- C3: for each of the seven controllers and every error `e`, if the
collaborator call of the controller (`authenticate(req.body)`,
`create(req.body)`, `getAll()`, `getById(req.user.sub)`,
`getById(req.params.id)`, `update(req.params.id, req.body)`,
`delete(req.params.id)`) rejects with `e`, the controller does nothing but make
that call and call `next(e)`: it sets no status code, sends no response, and
calls `next` exactly once, with `e` unchanged. -/
theorem rejection_forwarded_to_next (userService : UserService) (req : Request)
    (e : Thrown) :
    (userService (.authenticate req.body) = .reject e →
      ForwardsOnly (authenticate userService req) (.authenticate req.body) e) ∧
    (userService (.create req.body) = .reject e →
      ForwardsOnly (register userService req) (.create req.body) e) ∧
    (userService .getAll = .reject e →
      ForwardsOnly (getAll userService req) .getAll e) ∧
    (∀ u, req.user = some u → userService (.getById u.sub) = .reject e →
      ForwardsOnly (getCurrent userService req) (.getById u.sub) e) ∧
    (userService (.getById req.params.id) = .reject e →
      ForwardsOnly (getById userService req) (.getById req.params.id) e) ∧
    (userService (.update req.params.id req.body) = .reject e →
      ForwardsOnly (update userService req) (.update req.params.id req.body) e) ∧
    (userService (.delete req.params.id) = .reject e →
      ForwardsOnly (_delete userService req) (.delete req.params.id) e) := by
  refine ⟨?_, ?_, ?_, ?_, ?_, ?_, ?_⟩
  · intro h
    have key : authenticate userService req = [.call (.authenticate req.body), .next e] := by
      simp [authenticate, h]
    rw [key]; exact ⟨rfl, rfl, rfl, rfl, rfl⟩
  · intro h
    have key : register userService req = [.call (.create req.body), .next e] := by
      simp [register, h]
    rw [key]; exact ⟨rfl, rfl, rfl, rfl, rfl⟩
  · intro h
    have key : getAll userService req = [.call .getAll, .next e] := by
      simp [getAll, h]
    rw [key]; exact ⟨rfl, rfl, rfl, rfl, rfl⟩
  · intro u hu h
    have key : getCurrent userService req = [.call (.getById u.sub), .next e] := by
      simp [getCurrent, hu, h]
    rw [key]; exact ⟨rfl, rfl, rfl, rfl, rfl⟩
  · intro h
    have key : getById userService req = [.call (.getById req.params.id), .next e] := by
      simp [getById, h]
    rw [key]; exact ⟨rfl, rfl, rfl, rfl, rfl⟩
  · intro h
    have key : update userService req =
        [.call (.update req.params.id req.body), .next e] := by
      simp [update, h]
    rw [key]; exact ⟨rfl, rfl, rfl, rfl, rfl⟩
  · intro h
    have key : _delete userService req = [.call (.delete req.params.id), .next e] := by
      simp [_delete, h]
    rw [key]; exact ⟨rfl, rfl, rfl, rfl, rfl⟩

theorem rejection_forwarded_to_next_witness :
    ForwardsOnly (authenticate rejecting sampleRequest)
      (.authenticate sampleRequest.body) (.failure .Conflict (some "taken")) ∧
    ForwardsOnly (register rejecting sampleRequest)
      (.create sampleRequest.body) (.failure .Conflict (some "taken")) ∧
    ForwardsOnly (getAll rejecting sampleRequest) .getAll
      (.failure .Conflict (some "taken")) ∧
    ForwardsOnly (getCurrent rejecting sampleRequest) (.getById (.str "1"))
      (.failure .Conflict (some "taken")) ∧
    ForwardsOnly (getById rejecting sampleRequest) (.getById (.str "2"))
      (.failure .Conflict (some "taken")) ∧
    ForwardsOnly (update rejecting sampleRequest)
      (.update (.str "2") sampleRequest.body) (.failure .Conflict (some "taken")) ∧
    ForwardsOnly (_delete rejecting sampleRequest) (.delete (.str "2"))
      (.failure .Conflict (some "taken")) :=
  ⟨(rejection_forwarded_to_next rejecting sampleRequest _).1 rfl,
    (rejection_forwarded_to_next rejecting sampleRequest _).2.1 rfl,
    (rejection_forwarded_to_next rejecting sampleRequest _).2.2.1 rfl,
    (rejection_forwarded_to_next rejecting sampleRequest _).2.2.2.1 ⟨.str "1", false⟩ rfl rfl,
    (rejection_forwarded_to_next rejecting sampleRequest _).2.2.2.2.1 rfl,
    (rejection_forwarded_to_next rejecting sampleRequest _).2.2.2.2.2.1 rfl,
    (rejection_forwarded_to_next rejecting sampleRequest _).2.2.2.2.2.2 rfl⟩

/-- C4, as stated, fails: for an authenticated non-admin caller with subject `1`
and target id `2`, `getById`, `update`, `_delete` and `getAll` all perform the
collaborator call and answer with status 200, not 403. -/
theorem non_admin_reaches_other_user :
    sampleRequest.user = some ⟨.str "1", false⟩ ∧
    sampleRequest.params.id = .str "2" ∧
    Val.str "2" ≠ Val.str "1" ∧
    collabCalls (getById finds sampleRequest) = [.getById (.str "2")] ∧
    responseOf (getById finds sampleRequest) = some ⟨200, .json sampleRecord⟩ ∧
    collabCalls (update finds sampleRequest) = [.update (.str "2") sampleRequest.body] ∧
    statusOf (update finds sampleRequest) = some 200 ∧
    collabCalls (_delete finds sampleRequest) = [.delete (.str "2")] ∧
    statusOf (_delete finds sampleRequest) = some 200 ∧
    collabCalls (getAll finds sampleRequest) = [.getAll] ∧
    statusOf (getAll finds sampleRequest) = some 200 := by
  refine ⟨rfl, rfl, ?_, rfl, rfl, rfl, rfl, rfl, rfl, rfl, rfl⟩
  simp

/-- C4, amended: the controllers `getAll`, `getById`, `update` and `_delete`
take no access decision.  Whoever the caller is, each makes its collaborator
call, exactly once and with the request's own arguments (`getAll()`,
`getById(req.params.id)`, `update(req.params.id, req.body)`,
`delete(req.params.id)`); the response and the calls of `next` are decided by
the way that call settles alone, so two requests whose calls settle alike are
answered alike, whatever their identities; and the response never has status
403. -/
theorem controllers_take_no_access_decision (userService userService' : UserService)
    (req req' : Request) :
    (collabCalls (getAll userService req) = [.getAll] ∧
      (userService .getAll = userService' .getAll →
        responseOf (getAll userService req) = responseOf (getAll userService' req') ∧
        nextCalls (getAll userService req) = nextCalls (getAll userService' req')) ∧
      statusOf (getAll userService req) ≠ some 403) ∧
    (collabCalls (getById userService req) = [.getById req.params.id] ∧
      (userService (.getById req.params.id) = userService' (.getById req'.params.id) →
        responseOf (getById userService req) = responseOf (getById userService' req') ∧
        nextCalls (getById userService req) = nextCalls (getById userService' req')) ∧
      statusOf (getById userService req) ≠ some 403) ∧
    (collabCalls (update userService req) = [.update req.params.id req.body] ∧
      (userService (.update req.params.id req.body) =
          userService' (.update req'.params.id req'.body) →
        responseOf (update userService req) = responseOf (update userService' req') ∧
        nextCalls (update userService req) = nextCalls (update userService' req')) ∧
      statusOf (update userService req) ≠ some 403) ∧
    (collabCalls (_delete userService req) = [.delete req.params.id] ∧
      (userService (.delete req.params.id) = userService' (.delete req'.params.id) →
        responseOf (_delete userService req) = responseOf (_delete userService' req') ∧
        nextCalls (_delete userService req) = nextCalls (_delete userService' req')) ∧
      statusOf (_delete userService req) ≠ some 403) := by
  refine ⟨⟨?_, ?_, run_status_ne_403 .getAll userService req⟩,
    ⟨?_, ?_, run_status_ne_403 .getById userService req⟩,
    ⟨?_, ?_, run_status_ne_403 .update userService req⟩,
    ⟨?_, ?_, run_status_ne_403 ._delete userService req⟩⟩
  · unfold getAll
    cases h : userService .getAll <;> simp [collabCalls]
  · intro h
    unfold getAll
    rw [← h]
    cases userService .getAll <;> simp [responseOf, respond, nextCalls]
  · unfold getById
    cases h : userService (.getById req.params.id) with
    | resolve v => by_cases ht : v.truthy <;> simp [collabCalls, ht]
    | reject e => simp [collabCalls]
  · intro h
    unfold getById
    rw [← h]
    cases userService (.getById req.params.id) with
    | resolve v => by_cases ht : v.truthy <;> simp [responseOf, respond, nextCalls, ht]
    | reject e => simp [responseOf, respond, nextCalls]
  · unfold update
    cases h : userService (.update req.params.id req.body) <;> simp [collabCalls]
  · intro h
    unfold update
    rw [← h]
    cases userService (.update req.params.id req.body) <;>
      simp [responseOf, respond, nextCalls]
  · unfold _delete
    cases h : userService (.delete req.params.id) <;> simp [collabCalls]
  · intro h
    unfold _delete
    rw [← h]
    cases userService (.delete req.params.id) <;> simp [responseOf, respond, nextCalls]

theorem controllers_take_no_access_decision_witness :
    sampleRequest.user = some ⟨.str "1", false⟩ ∧
    ownerRequest.user = some ⟨.str "2", true⟩ ∧
    collabCalls (getById finds sampleRequest) = [.getById (.str "2")] ∧
    responseOf (getById finds sampleRequest) = responseOf (getById finds ownerRequest) ∧
    collabCalls (update finds sampleRequest) = [.update (.str "2") sampleRequest.body] ∧
    responseOf (update finds sampleRequest) = responseOf (update finds ownerRequest) ∧
    collabCalls (_delete finds sampleRequest) = [.delete (.str "2")] ∧
    responseOf (_delete finds sampleRequest) = responseOf (_delete finds ownerRequest) ∧
    collabCalls (getAll finds sampleRequest) = [.getAll] ∧
    responseOf (getAll finds sampleRequest) = responseOf (getAll finds ownerRequest) ∧
    statusOf (getById finds sampleRequest) ≠ some 403 :=
  ⟨rfl, rfl,
    (controllers_take_no_access_decision finds finds sampleRequest ownerRequest).2.1.1,
    ((controllers_take_no_access_decision finds finds sampleRequest ownerRequest).2.1.2.1
      rfl).1,
    (controllers_take_no_access_decision finds finds sampleRequest ownerRequest).2.2.1.1,
    ((controllers_take_no_access_decision finds finds sampleRequest ownerRequest).2.2.1.2.1
      rfl).1,
    (controllers_take_no_access_decision finds finds sampleRequest ownerRequest).2.2.2.1,
    ((controllers_take_no_access_decision finds finds sampleRequest ownerRequest).2.2.2.2.1
      rfl).1,
    (controllers_take_no_access_decision finds finds sampleRequest ownerRequest).1.1,
    ((controllers_take_no_access_decision finds finds sampleRequest ownerRequest).1.2.1
      rfl).1,
    (controllers_take_no_access_decision finds finds sampleRequest ownerRequest).2.1.2.2⟩

/-- C5, as stated, fails: when the collaborator's record carries a `hash`
field, the body `getById` sends is that record, `hash` field included. -/
theorem hash_reaches_response_body :
    finds (.getById sampleRequest.params.id) = .resolve sampleRecord ∧
    sampleRecord.hasField "hash" = true ∧
    responseOf (getById finds sampleRequest) = some ⟨200, .json sampleRecord⟩ := by
  refine ⟨rfl, ?_, rfl⟩
  decide

/-- C5, amended: the record-returning controllers strip nothing.  When the
collaborator resolves with a (truthy) record, the body `getById`, `getCurrent`
and `authenticate` send is exactly that record, and the body `getAll` sends is
exactly the value the collaborator resolved with; so the body carries a
credential hash whenever the collaborator's record does. -/
theorem record_sent_unchanged (userService : UserService) (req : Request) (v : Val) :
    (userService (.getById req.params.id) = .resolve v → v.truthy = true →
      responseOf (getById userService req) = some ⟨200, .json v⟩) ∧
    (∀ u, req.user = some u → userService (.getById u.sub) = .resolve v →
      v.truthy = true → responseOf (getCurrent userService req) = some ⟨200, .json v⟩) ∧
    (userService (.authenticate req.body) = .resolve v → v.truthy = true →
      responseOf (authenticate userService req) = some ⟨200, .json v⟩) ∧
    (userService .getAll = .resolve v →
      responseOf (getAll userService req) = some ⟨200, .json v⟩) := by
  refine ⟨?_, ?_, ?_, ?_⟩
  · intro h ht
    rw [getById_resolve userService req v h]; simp [ht, responseOf, respond]
  · intro u hu h ht
    rw [getCurrent_resolve userService req u v hu h]; simp [ht, responseOf, respond]
  · intro h ht
    rw [authenticate_resolve userService req v h]; simp [ht, responseOf, respond]
  · intro h
    simp [getAll, h, responseOf, respond]

theorem record_sent_unchanged_witness :
    responseOf (getById finds sampleRequest) = some ⟨200, .json sampleRecord⟩ ∧
    responseOf (getCurrent finds sampleRequest) = some ⟨200, .json sampleRecord⟩ ∧
    responseOf (authenticate finds sampleRequest) = some ⟨200, .json sampleRecord⟩ ∧
    responseOf (getAll finds sampleRequest) = some ⟨200, .json sampleRecord⟩ :=
  ⟨(record_sent_unchanged finds sampleRequest sampleRecord).1 rfl rfl,
    (record_sent_unchanged finds sampleRequest sampleRecord).2.1 ⟨.str "1", false⟩ rfl rfl rfl,
    (record_sent_unchanged finds sampleRequest sampleRecord).2.2.1 rfl rfl,
    (record_sent_unchanged finds sampleRequest sampleRecord).2.2.2 rfl⟩

/-- C6, as stated, fails: when the collaborator resolves with no record,
`getById` answers through `res.sendStatus(404)`, whose body is the reason
phrase of the code, not an empty body. -/
theorem not_found_body_is_reason_phrase :
    noMatch (.getById sampleRequest.params.id) = .resolve .null ∧
    responseOf (getById noMatch sampleRequest) = some ⟨404, .text "Not Found"⟩ ∧
    responseOf (getById noMatch sampleRequest) ≠ some ⟨404, .empty⟩ ∧
    responseOf (getById noMatch sampleRequest) ≠ some ⟨404, .text ""⟩ := by
  have h : responseOf (getById noMatch sampleRequest) = some ⟨404, .text "Not Found"⟩ := rfl
  refine ⟨rfl, h, ?_, ?_⟩ <;> rw [h] <;> simp

/-- C6, amended: `getById` calls `userService.getById` with exactly
`req.params.id`, and `getCurrent`, on a request with an identity attached,
with exactly `req.user.sub`.  If the call resolves with a truthy record the
response has status 200 and that record as its JSON body; if it resolves with
a falsy value the response is sent by `res.sendStatus(404)`: status 404 with
the text body `Not Found`.  In both cases `next` is not called. -/
theorem lookup_by_id (userService : UserService) (req : Request) :
    collabCalls (getById userService req) = [.getById req.params.id] ∧
    (∀ v, userService (.getById req.params.id) = .resolve v →
      nextCalls (getById userService req) = [] ∧
      (v.truthy = true →
        responseOf (getById userService req) = some ⟨200, .json v⟩) ∧
      (v.truthy = false →
        responseOf (getById userService req) = some ⟨404, .text "Not Found"⟩)) ∧
    (∀ u, req.user = some u →
      collabCalls (getCurrent userService req) = [.getById u.sub] ∧
      ∀ v, userService (.getById u.sub) = .resolve v →
        nextCalls (getCurrent userService req) = [] ∧
        (v.truthy = true →
          responseOf (getCurrent userService req) = some ⟨200, .json v⟩) ∧
        (v.truthy = false →
          responseOf (getCurrent userService req) = some ⟨404, .text "Not Found"⟩)) := by
  refine ⟨?_, ?_, ?_⟩
  · unfold getById
    cases h : userService (.getById req.params.id) with
    | resolve v => by_cases ht : v.truthy <;> simp [collabCalls, ht]
    | reject e => simp [collabCalls]
  · intro v h
    rw [getById_resolve userService req v h]
    by_cases ht : v.truthy <;> simp [ht, nextCalls, responseOf, respond, statusMessage_404, sentText_404]
  · intro u hu
    refine ⟨?_, ?_⟩
    · unfold getCurrent
      cases h : userService (.getById u.sub) with
      | resolve v => by_cases ht : v.truthy <;> simp [collabCalls, hu, h, ht]
      | reject e => simp [collabCalls, hu, h]
    · intro v h
      rw [getCurrent_resolve userService req u v hu h]
      by_cases ht : v.truthy <;> simp [ht, nextCalls, responseOf, respond, statusMessage_404, sentText_404]

theorem lookup_by_id_witness :
    collabCalls (getById noMatch sampleRequest) = [.getById (.str "2")] ∧
    responseOf (getById noMatch sampleRequest) = some ⟨404, .text "Not Found"⟩ ∧
    collabCalls (getCurrent finds sampleRequest) = [.getById (.str "1")] ∧
    responseOf (getCurrent finds sampleRequest) = some ⟨200, .json sampleRecord⟩ :=
  ⟨(lookup_by_id noMatch sampleRequest).1,
    ((lookup_by_id noMatch sampleRequest).2.1 .null rfl).2.2 rfl,
    ((lookup_by_id finds sampleRequest).2.2 ⟨.str "1", false⟩ rfl).1,
    (((lookup_by_id finds sampleRequest).2.2 ⟨.str "1", false⟩ rfl).2 sampleRecord rfl).2.1 rfl⟩

/-- C7, as stated, fails: with a collaborator that found the record on the
first `delete(id)` and finds none on the second (it resolves with `null`), the
second `_delete` answers exactly as the first did, with status 200 and the
empty object, not with status 404. -/
theorem repeated_delete_succeeds_again :
    finds (.delete sampleRequest.params.id) = .resolve sampleRecord ∧
    noMatch (.delete sampleRequest.params.id) = .resolve .null ∧
    responseOf (_delete finds sampleRequest) = some ⟨200, .json (.obj [])⟩ ∧
    responseOf (_delete noMatch sampleRequest) = some ⟨200, .json (.obj [])⟩ ∧
    statusOf (_delete noMatch sampleRequest) ≠ some 404 := by
  refine ⟨rfl, rfl, rfl, rfl, ?_⟩
  decide

/-- C7, amended: `_delete` does not tell a repeated delete from a first one.
Whenever the collaborator's `delete(id)` resolves, with or without a record,
the response is the same success, status 200 with the empty object; `_delete`
never answers with status 404, and an error is reported only when the
collaborator rejects. -/
theorem delete_answers_the_same (first second : UserService) (req : Request)
    (v₁ v₂ : Val) (h₁ : first (.delete req.params.id) = .resolve v₁)
    (h₂ : second (.delete req.params.id) = .resolve v₂) :
    responseOf (_delete second req) = responseOf (_delete first req) ∧
    responseOf (_delete second req) = some ⟨200, .json (.obj [])⟩ ∧
    nextCalls (_delete second req) = [] ∧
    ∀ userService : UserService, statusOf (_delete userService req) ≠ some 404 := by
  refine ⟨?_, ?_, ?_, ?_⟩
  · simp [_delete, h₁, h₂, responseOf, respond]
  · simp [_delete, h₂, responseOf, respond]
  · simp [_delete, h₂, nextCalls]
  · intro userService
    unfold _delete
    cases h : userService (.delete req.params.id) <;> simp [statusOf, responseOf, respond]

theorem delete_answers_the_same_witness :
    responseOf (_delete noMatch sampleRequest) = responseOf (_delete finds sampleRequest) ∧
    responseOf (_delete noMatch sampleRequest) = some ⟨200, .json (.obj [])⟩ ∧
    nextCalls (_delete noMatch sampleRequest) = [] ∧
    ∀ userService : UserService, statusOf (_delete userService sampleRequest) ≠ some 404 :=
  delete_answers_the_same finds noMatch sampleRequest sampleRecord .null rfl rfl

/-- C9, as stated, fails: on a request with no identity attached, `getCurrent`
dereferences `req.user` all the same; the access throws, and the controller
neither sends a response nor calls `next`. -/
theorem getCurrent_anonymous_unanswered :
    anonymousRequest.user = none ∧
    getCurrent finds anonymousRequest = [.threw subOfUndefined] ∧
    responseOf (getCurrent finds anonymousRequest) = none ∧
    nextCalls (getCurrent finds anonymousRequest) = [] :=
  ⟨rfl, rfl, rfl, rfl⟩

/-- C9, amended: `getCurrent` reads `req.user.sub` without checking that an
identity is attached.  On a request without one the read throws before the
collaborator is reached: no collaborator call is made (so none with an
undefined subject), no response is sent and `next` is not called; the only
effect is the rejection of the promise the controller returns.  The other six
controllers never read the identity. -/
theorem getCurrent_without_identity (userService : UserService) (req : Request)
    (h : req.user = none) :
    getCurrent userService req = [.threw subOfUndefined] ∧
    collabCalls (getCurrent userService req) = [] ∧
    responseOf (getCurrent userService req) = none ∧
    nextCalls (getCurrent userService req) = [] ∧
    thrownBy (getCurrent userService req) = some subOfUndefined ∧
    ∀ ctl : Controller, ctl ≠ .getCurrent → ∀ who : Option Identity,
      ctl.run userService { req with user := who } = ctl.run userService req := by
  rw [getCurrent_anonymous userService req h]
  exact ⟨rfl, rfl, rfl, rfl, rfl, fun ctl hne who => run_ignores_user ctl hne userService req who⟩

theorem getCurrent_without_identity_witness :
    getCurrent finds anonymousRequest = [.threw subOfUndefined] ∧
    collabCalls (getCurrent finds anonymousRequest) = [] ∧
    responseOf (getCurrent finds anonymousRequest) = none ∧
    nextCalls (getCurrent finds anonymousRequest) = [] ∧
    thrownBy (getCurrent finds anonymousRequest) = some subOfUndefined ∧
    ∀ ctl : Controller, ctl ≠ .getCurrent → ∀ who : Option Identity,
      ctl.run finds { anonymousRequest with user := who } = ctl.run finds anonymousRequest :=
  getCurrent_without_identity finds anonymousRequest rfl

/-- C10: for `register`, `update` and `_delete`, whenever the collaborator call
(`create(req.body)`, `update(req.params.id, req.body)`,
`delete(req.params.id)`) resolves, with any value, the controller makes that
call, sets no status code and sends the empty JSON object: the response has
status 200 and a body with no field at all, whatever the request and whatever
the collaborator resolved with, and `next` is not called. -/
theorem unit_operations_send_empty_object (userService : UserService) (req : Request)
    (v : Val) :
    (userService (.create req.body) = .resolve v →
      register userService req = [.call (.create req.body), .json (.obj [])] ∧
      responseOf (register userService req) = some ⟨200, .json (.obj [])⟩ ∧
      nextCalls (register userService req) = []) ∧
    (userService (.update req.params.id req.body) = .resolve v →
      update userService req =
        [.call (.update req.params.id req.body), .json (.obj [])] ∧
      responseOf (update userService req) = some ⟨200, .json (.obj [])⟩ ∧
      nextCalls (update userService req) = []) ∧
    (userService (.delete req.params.id) = .resolve v →
      _delete userService req = [.call (.delete req.params.id), .json (.obj [])] ∧
      responseOf (_delete userService req) = some ⟨200, .json (.obj [])⟩ ∧
      nextCalls (_delete userService req) = []) ∧
    ∀ name : String, (Val.obj []).hasField name = false := by
  refine ⟨?_, ?_, ?_, fun _ => rfl⟩
  · intro h
    have key : register userService req = [.call (.create req.body), .json (.obj [])] := by
      simp [register, h]
    rw [key]; exact ⟨rfl, rfl, rfl⟩
  · intro h
    have key : update userService req =
        [.call (.update req.params.id req.body), .json (.obj [])] := by
      simp [update, h]
    rw [key]; exact ⟨rfl, rfl, rfl⟩
  · intro h
    have key : _delete userService req =
        [.call (.delete req.params.id), .json (.obj [])] := by
      simp [_delete, h]
    rw [key]; exact ⟨rfl, rfl, rfl⟩

theorem unit_operations_send_empty_object_witness :
    (register finds sampleRequest = [.call (.create sampleRequest.body), .json (.obj [])] ∧
      responseOf (register finds sampleRequest) = some ⟨200, .json (.obj [])⟩ ∧
      nextCalls (register finds sampleRequest) = []) ∧
    (update noMatch sampleRequest =
        [.call (.update (.str "2") sampleRequest.body), .json (.obj [])] ∧
      responseOf (update noMatch sampleRequest) = some ⟨200, .json (.obj [])⟩ ∧
      nextCalls (update noMatch sampleRequest) = []) ∧
    (_delete finds sampleRequest = [.call (.delete (.str "2")), .json (.obj [])] ∧
      responseOf (_delete finds sampleRequest) = some ⟨200, .json (.obj [])⟩ ∧
      nextCalls (_delete finds sampleRequest) = []) :=
  ⟨(unit_operations_send_empty_object finds sampleRequest sampleRecord).1 rfl,
    (unit_operations_send_empty_object noMatch sampleRequest .null).2.1 rfl,
    (unit_operations_send_empty_object finds sampleRequest sampleRecord).2.2.1 rfl⟩

/-! ## Results on the pipeline -/

/-- The run of the application on a request that the library middleware pass on
and the token verifier rejects. -/
theorem serve_rejected (env : Env) (req r₁ r₂ r₃ : Request)
    (h₁ : env.urlencoded req = .pass r₁) (h₂ : env.json r₁ = .pass r₂)
    (h₃ : env.cors r₂ = .pass r₃) (hprot : isPublic r₃ = false)
    (hfail : r₃.authorization.bind env.verify = none) :
    serve env req =
      [.next (.value .undefined), .next (.value .undefined), .next (.value .undefined),
        .next (.failure .Unauthenticated none), .status 401, .json (.obj [])] := by
  simp [serve, app, dispatch, Layer.isErrorHandler, Layer.onPath, Layer.handle, Step.effects,
    h₁, h₂, h₃, Signal.ofEvents, Signal.ofNext, Val.truthy, jwt, hprot, hfail, errorHandler,
    FailureKind.status, messageBody]

/-- C8: in the stack of `app.js` the token verifier comes before the `/users`
router and the error handler is the last layer; hence, for every request that
reaches the verifier on a protected route and that the verifier rejects, the
router is not invoked (the run is the same whatever the router is, and holds no
collaborator call), the failure goes to the error handler, and the response
status is 401. -/
theorem rejected_token_answered_401 (env : Env) (req r₁ r₂ r₃ : Request)
    (h₁ : env.urlencoded req = .pass r₁) (h₂ : env.json r₁ = .pass r₂)
    (h₃ : env.cors r₂ = .pass r₃) (hprot : isPublic r₃ = false)
    (hfail : r₃.authorization.bind env.verify = none) :
    app.indexOf Layer.jwt < app.indexOf (Layer.mount "users") ∧
    app.getLast? = some Layer.errorHandler ∧
    serve env req =
      [.next (.value .undefined), .next (.value .undefined), .next (.value .undefined),
        .next (.failure .Unauthenticated none)] ++
        errorHandler (.failure .Unauthenticated none) ∧
    (∀ router, serve { env with router := router } req = serve env req) ∧
    collabCalls (serve env req) = [] ∧
    statusOf (serve env req) = some 401 := by
  have key := serve_rejected env req r₁ r₂ r₃ h₁ h₂ h₃ hprot hfail
  refine ⟨by decide, by decide, ?_, ?_, ?_, ?_⟩
  · rw [key]; rfl
  · intro router
    rw [key]
    exact serve_rejected { env with router := router } req r₁ r₂ r₃ h₁ h₂ h₃ hprot hfail
  · rw [key]; rfl
  · rw [key]; rfl

theorem rejected_token_answered_401_witness :
    app.indexOf Layer.jwt < app.indexOf (Layer.mount "users") ∧
    app.getLast? = some Layer.errorHandler ∧
    serve sampleEnv anonymousRequest =
      [.next (.value .undefined), .next (.value .undefined), .next (.value .undefined),
        .next (.failure .Unauthenticated none)] ++
        errorHandler (.failure .Unauthenticated none) ∧
    (∀ router, serve { sampleEnv with router := router } anonymousRequest =
      serve sampleEnv anonymousRequest) ∧
    collabCalls (serve sampleEnv anonymousRequest) = [] ∧
    statusOf (serve sampleEnv anonymousRequest) = some 401 :=
  rejected_token_answered_401 sampleEnv anonymousRequest anonymousRequest anonymousRequest
    anonymousRequest rfl rfl rfl (by decide) rfl

end UserApi
